import Mathlib

/-!
Verification of the hierarchical-catalog servers in this repository.

The repository holds four near-duplicate Express/PostgreSQL servers:

* `src/index.js` (first half, called V1 here): pg-backed catalog with
  `products`, `bom_items(parent_id, child_id)`, `cart_items`;
* `src/index.js` (second half, called V2 here): pg-backed catalog with
  `bom_items(parent_product_id, child_product_id)`, media-url columns,
  `orders` / `order_items` tables;
* `src/unnamed/part_000` (called Part000 here): pg-backed catalog with
  `bom_items(parent_id, product_id)`, disk-backed media uploads and a
  storage-statistics endpoint;
* `src/unnamed/part_001` (called Part001 here): pg-backed catalog with
  `bom_items(product_id, child_product_id)` and an in-memory cart array.

Each handler that the claims mention is translated below into a pure
function over an explicit state record.  SQL statements are modelled by
the corresponding list operations; the PostgreSQL foreign-key constraints
documented in the schema comment of `part_000` (and in the table comment
above `POST /api/orders` in `index.js`) are modelled as explicit
existence checks whose failure yields a 500-style server error, exactly
as a raised constraint violation does in the JavaScript `catch` blocks.
`BEGIN`/`COMMIT`/`ROLLBACK` transactions are modelled by returning the
original state on the failing paths; plain sequential `pool.query` calls
commit each step independently, which the corresponding definitions make
explicit by threading the intermediate states.
-/

/-- HTTP-level error outcomes used by every handler (400, 401, 403, 404, 500). -/
inductive ApiErr where
  | badRequest
  | unauthorized
  | forbidden
  | notFound
  | serverError
deriving DecidableEq, Repr

instance exceptDecEq {ε α : Type} [DecidableEq ε] [DecidableEq α] :
    DecidableEq (Except ε α) := fun x y =>
  match x, y with
  | .ok a, .ok b =>
      if h : a = b then .isTrue (by rw [h])
      else .isFalse (by intro hc; cases hc; exact h rfl)
  | .ok _, .error _ => .isFalse (by intro hc; cases hc)
  | .error _, .ok _ => .isFalse (by intro hc; cases hc)
  | .error e, .error f =>
      if h : e = f then .isTrue (by rw [h])
      else .isFalse (by intro hc; cases hc; exact h rfl)

/-- A JSON body field: absent from the body, explicitly `null`, or a value.
`undefined` and `null` are both sent to PostgreSQL as SQL `NULL` by the
`pg` driver, which `storeField` reflects. -/
inductive FieldIn (α : Type) where
  | missing
  | null
  | val (a : α)
deriving DecidableEq, Repr

/-- How V1's `UPDATE products SET code = $1, ...` and Part001's handler
store a body field: the raw parameter, with `undefined`/`null` becoming
SQL `NULL`. -/
def storeField {α : Type} : FieldIn α → Option α
  | .val a => some a
  | _ => none

/-- How V2's `COALESCE($1, code)` stores a body field: `NULL` parameters
keep the existing column value. -/
def coalesceField {α : Type} : FieldIn α → Option α → Option α
  | .val a, _ => some a
  | _, old => old

/-- JavaScript truthiness of a string body field (`!code`):
missing, `null` and the empty string are falsy. -/
def truthyS : FieldIn String → Bool
  | .val s => s ≠ ""
  | _ => false

/-- A `quantity` value arriving in a JSON body: omitted, non-numeric
(`Number(...)` gives `NaN`), or a number. -/
inductive QtyInput where
  | missing
  | invalid
  | num (n : Int)
deriving DecidableEq, Repr

/-- V1 cart coercion `Number(quantity) || 1`: `NaN` and `0` fall back to
`1`; every other number — negative ones included — passes through. -/
def coerceQtyV1 : QtyInput → Int
  | .missing => 1
  | .invalid => 1
  | .num n => if n = 0 then 1 else n

/-- Part000 coercion `quantity && Number(quantity) > 0 ? Number(quantity) : 1`:
anything that is not a positive number becomes `1`. -/
def coerceQtyPart000 : QtyInput → Int
  | .num n => if n > 0 then n else 1
  | _ => 1

/-- Part001 coercion `normalizeNumber(quantity) || 1`: missing, `NaN` and
`0` become `1`; other numbers — negative ones included — pass through. -/
def coerceQtyPart001 : QtyInput → Int
  | .missing => 1
  | .invalid => 1
  | .num n => if n = 0 then 1 else n

/-- A `products` row in the base schema (V1, Part000, Part001):
`id serial`, then seven nullable columns. -/
structure Product where
  id : Nat
  code : Option String
  name : Option String
  type : Option String
  mass_kg : Option Int
  length_mm : Option Int
  width_mm : Option Int
  height_mm : Option Int
deriving DecidableEq, Repr

/-- A `products` row in V2's schema, which additionally stores the two
media-url columns. -/
structure ProductV2 where
  id : Nat
  code : Option String
  name : Option String
  type : Option String
  mass_kg : Option Int
  length_mm : Option Int
  width_mm : Option Int
  height_mm : Option Int
  image2d_url : Option String
  model3d_url : Option String
deriving DecidableEq, Repr

/-- A `bom_items` row.  Column names differ per variant
(V1 `parent_id`/`child_id`, V2 `parent_product_id`/`child_product_id`,
Part000 `parent_id`/`product_id`, Part001 `product_id`/`child_product_id`)
but the shape is always (id, parent, child, quantity). -/
structure BomEdge where
  id : Nat
  parent_id : Nat
  child_id : Nat
  quantity : Int
deriving DecidableEq, Repr

/-- A pg-backed `cart_items` row (V1, V2, Part000). -/
structure CartLine where
  id : Nat
  product_id : Nat
  quantity : Int
deriving DecidableEq, Repr

/-- `ORDER BY p.code` with PostgreSQL's default `NULLS LAST` for
ascending order. -/
def codeLe (a b : Option String) : Bool :=
  match a, b with
  | some x, some y => x ≤ y
  | some _, none => true
  | none, some _ => false
  | none, none => true

/-- Whether some composition edge has `pid` as its child endpoint. -/
def hasIncomingEdge (bom : List BomEdge) (pid : Nat) : Bool :=
  bom.any (fun e => e.child_id = pid)

/-- V1 `GET /api/products/root`:
`SELECT ... FROM products p LEFT JOIN bom_items b ON p.id = b.child_id
WHERE b.child_id IS NULL ORDER BY p.code` — the products that are no
edge's child, ordered by code. -/
def listRootsV1 (products : List Product) (bom : List BomEdge) : List Product :=
  (products.filter (fun p => !hasIncomingEdge bom p.id)).mergeSort
    (fun a b => codeLe a.code b.code)

/-- V2 `GET /api/products/root`:
`SELECT ... FROM products p WHERE NOT EXISTS (SELECT 1 FROM bom_items b
WHERE b.child_product_id = p.id) ORDER BY p.id` — same set, but ordered
by id. -/
def listRootsV2 (products : List ProductV2) (bom : List BomEdge) : List ProductV2 :=
  (products.filter (fun p => !hasIncomingEdge bom p.id)).mergeSort
    (fun a b => a.id ≤ b.id)

/-- Part000 `GET /api/products/root`:
`SELECT ... FROM products ORDER BY code` — every product, ordered by
code; the handler's own comment says it deliberately returns ALL
products and leaves root-detection to the frontend. -/
def listRootsPart000 (products : List Product) : List Product :=
  products.mergeSort (fun a b => codeLe a.code b.code)

/-- Database state of the V1 server: `products`, `bom_items`,
`cart_items`, plus the serial counter backing `cart_items.id`. -/
structure StV1 where
  products : List Product
  bom : List BomEdge
  cart : List CartLine
  nextCartId : Nat
deriving DecidableEq, Repr

/-- V1 `POST /api/cart/add` `{productId, quantity}`:
rejects a falsy `productId` with 400, coerces the quantity with
`Number(quantity) || 1`, then runs
`INSERT INTO cart_items (product_id, quantity) VALUES ($1,$2)
ON CONFLICT (product_id) DO UPDATE SET quantity = cart_items.quantity +
EXCLUDED.quantity`.  The `ON CONFLICT` clause needs the unique index on
`product_id`, so at most one row per product exists; the insert arm is
subject to the `cart_items.product_id REFERENCES products(id)` foreign
key, whose violation surfaces as a 500. -/
def cartAddV1 (st : StV1) (productId : Nat) (qty : QtyInput) :
    StV1 × Except ApiErr Unit :=
  if productId = 0 then (st, .error .badRequest)
  else
    let q := coerceQtyV1 qty
    match st.cart.find? (fun l => l.product_id = productId) with
    | some _ =>
        ({ st with
            cart := st.cart.map (fun l =>
              if l.product_id = productId then
                { l with quantity := l.quantity + q }
              else l) },
         .ok ())
    | none =>
        if st.products.any (fun p => p.id = productId) then
          ({ st with
              cart := st.cart ++ [⟨st.nextCartId, productId, q⟩],
              nextCartId := st.nextCartId + 1 },
           .ok ())
        else (st, .error .serverError)

/-- V1 `DELETE /api/products/:id`: three separate autocommitted queries —
`DELETE FROM bom_items WHERE parent_id = $1 OR child_id = $1`,
`DELETE FROM cart_items WHERE product_id = $1`, then
`DELETE FROM products WHERE id = $1 RETURNING id` with a 404 when no row
came back.  In V1's schema nothing else references `products`, so the
final delete cannot fail once the first two ran. -/
def deleteProductV1 (st : StV1) (id : Nat) : StV1 × Except ApiErr Unit :=
  let st1 := { st with
    bom := st.bom.filter (fun e => !(e.parent_id = id ∨ e.child_id = id)) }
  let st2 := { st1 with
    cart := st1.cart.filter (fun l => !(l.product_id = id)) }
  if st2.products.any (fun p => p.id = id) then
    ({ st2 with products := st2.products.filter (fun p => !(p.id = id)) }, .ok ())
  else (st2, .error .notFound)

/-- The body of a product update request in the base seven-column schema. -/
structure UpdV1 where
  code : FieldIn String
  name : FieldIn String
  type : FieldIn String
  mass_kg : FieldIn Int
  length_mm : FieldIn Int
  width_mm : FieldIn Int
  height_mm : FieldIn Int
deriving DecidableEq, Repr

/-- How V1's `UPDATE products SET code = $1, ..., height_mm = $7` rewrites
one row: every column receives the raw body parameter, so an absent or
`null` field is stored as SQL `NULL`.  Part001's
`PUT /api/admin/products/:id` stores the same values (its
`normalizeNumber` also maps absent/`null` numerics to `NULL`). -/
def applyUpdV1 (ins : UpdV1) (p : Product) : Product :=
  { p with
    code := storeField ins.code
    name := storeField ins.name
    type := storeField ins.type
    mass_kg := storeField ins.mass_kg
    length_mm := storeField ins.length_mm
    width_mm := storeField ins.width_mm
    height_mm := storeField ins.height_mm }

/-- V1 `PUT /api/products/:id`: one `UPDATE ... WHERE id = $8 RETURNING *`;
404 when no row matched. -/
def updateProductV1 (st : StV1) (id : Nat) (ins : UpdV1) :
    StV1 × Except ApiErr Product :=
  match (st.products.filter (fun p => p.id = id)).head? with
  | none => (st, .error .notFound)
  | some p =>
      ({ st with
          products := st.products.map (fun q =>
            if q.id = id then applyUpdV1 ins q else q) },
       .ok (applyUpdV1 ins p))

/-- An `orders` row (V2).  `created_at` is wall-clock time and is left
out of the model; `order_number` is the value actually inserted
(either the one supplied or the generated `ORD-<timestamp>` string). -/
structure Order where
  id : Nat
  customer_name : Option String
  customer_email : Option String
  customer_phone : Option String
  order_number : Option String
  comment : Option String
deriving DecidableEq, Repr

/-- An `order_items` row (V2). -/
structure OrderItem where
  id : Nat
  order_id : Nat
  product_id : Nat
  quantity : Int
deriving DecidableEq, Repr

/-- Database state of the V2 server: the comment above `POST /api/orders`
documents `order_items.product_id` as a foreign key into `products`. -/
structure StV2 where
  products : List ProductV2
  bom : List BomEdge
  cart : List CartLine
  orders : List Order
  order_items : List OrderItem
  nextBomId : Nat
  nextCartId : Nat
  nextOrderId : Nat
  nextOrderItemId : Nat
deriving DecidableEq, Repr

/-- V2 `POST /api/bom` `{parentId, childId, quantity}` (`quantity`
defaults to 1 via destructuring): rejects falsy ids with 400, then runs a
single `INSERT INTO bom_items (parent_product_id, child_product_id,
quantity) VALUES ($1,$2,$3) RETURNING ...`.  No cycle check of any kind
is performed — not even `parentId = childId` is rejected.  The insert is
subject to the foreign keys on both endpoints, whose violation surfaces
as a 500. -/
def addBomV2 (st : StV2) (parentId childId : Nat) (quantity : Int) :
    StV2 × Except ApiErr BomEdge :=
  if parentId = 0 ∨ childId = 0 then (st, .error .badRequest)
  else if st.products.any (fun p => p.id = parentId) ∧
          st.products.any (fun p => p.id = childId) then
    let e : BomEdge := ⟨st.nextBomId, parentId, childId, quantity⟩
    ({ st with bom := st.bom ++ [e], nextBomId := st.nextBomId + 1 }, .ok e)
  else (st, .error .serverError)

/-- V2 `DELETE /api/products/:id`: three separate autocommitted
`pool.query` calls, with no surrounding transaction —
`DELETE FROM bom_items WHERE parent_product_id = $1 OR
child_product_id = $1`, `DELETE FROM cart_items WHERE product_id = $1`,
then `DELETE FROM products WHERE id = $1 RETURNING ...`.  The final
delete raises a foreign-key violation (surfacing as a 500) whenever an
`order_items` row still references the product, because the handler
never clears `order_items`; the first two deletions stay committed in
that case. -/
def deleteProductV2 (st : StV2) (id : Nat) : StV2 × Except ApiErr ProductV2 :=
  let st1 := { st with
    bom := st.bom.filter (fun e => !(e.parent_id = id ∨ e.child_id = id)) }
  let st2 := { st1 with
    cart := st1.cart.filter (fun l => !(l.product_id = id)) }
  if st2.order_items.any (fun r => r.product_id = id) then
    (st2, .error .serverError)
  else
    match (st2.products.filter (fun p => p.id = id)).head? with
    | some p =>
        ({ st2 with products := st2.products.filter (fun q => !(q.id = id)) },
         .ok p)
    | none => (st2, .error .notFound)

/-- V2 `POST /api/cart/add` `{productId, quantity}` (`quantity` defaults
to 1 via destructuring): rejects a falsy `productId` with 400, then runs
a plain `INSERT INTO cart_items (product_id, quantity) VALUES ($1,$2)`
— no `ON CONFLICT`, so repeated adds pile up separate rows.  A
non-numeric quantity or an unknown product makes the insert raise
(500). -/
def cartAddV2 (st : StV2) (productId : Nat) (qty : QtyInput) :
    StV2 × Except ApiErr CartLine :=
  if productId = 0 then (st, .error .badRequest)
  else
    match qty with
    | .invalid => (st, .error .serverError)
    | _ =>
      let q : Int := match qty with
        | .num n => n
        | _ => 1
      if st.products.any (fun p => p.id = productId) then
        let l : CartLine := ⟨st.nextCartId, productId, q⟩
        ({ st with cart := st.cart ++ [l], nextCartId := st.nextCartId + 1 },
         .ok l)
      else (st, .error .serverError)

/-- The body of a V2 product update request (nine columns). -/
structure UpdV2 where
  code : FieldIn String
  name : FieldIn String
  type : FieldIn String
  mass_kg : FieldIn Int
  length_mm : FieldIn Int
  width_mm : FieldIn Int
  height_mm : FieldIn Int
  image2d_url : FieldIn String
  model3d_url : FieldIn String
deriving DecidableEq, Repr

/-- How V2's `UPDATE products SET code = COALESCE($1, code), ...`
rewrites one row: a `NULL` parameter — which both an absent and an
explicitly null body field produce — keeps the old column value. -/
def applyUpdV2 (ins : UpdV2) (p : ProductV2) : ProductV2 :=
  { p with
    code := coalesceField ins.code p.code
    name := coalesceField ins.name p.name
    type := coalesceField ins.type p.type
    mass_kg := coalesceField ins.mass_kg p.mass_kg
    length_mm := coalesceField ins.length_mm p.length_mm
    width_mm := coalesceField ins.width_mm p.width_mm
    height_mm := coalesceField ins.height_mm p.height_mm
    image2d_url := coalesceField ins.image2d_url p.image2d_url
    model3d_url := coalesceField ins.model3d_url p.model3d_url }

/-- V2 `PUT /api/products/:id`: one COALESCE-based
`UPDATE ... WHERE id = $10 RETURNING ...`; 404 when no row matched. -/
def updateProductV2 (st : StV2) (id : Nat) (ins : UpdV2) :
    StV2 × Except ApiErr ProductV2 :=
  match (st.products.filter (fun p => p.id = id)).head? with
  | none => (st, .error .notFound)
  | some p =>
      ({ st with
          products := st.products.map (fun q =>
            if q.id = id then applyUpdV2 ins q else q) },
       .ok (applyUpdV2 ins p))

/-- The loop in `POST /api/orders` that inserts one `order_items` row per
cart line inside the open transaction.  `failItem i` injects a failure of
the i-th `INSERT INTO order_items` (a transient database error); `none`
means some insert failed and the transaction will be rolled back. -/
def insertOrderItems (oid : Nat) (failItem : Nat → Bool) :
    Nat → Nat → List OrderItem → List CartLine → Option (List OrderItem × Nat)
  | _, nextId, rows, [] => some (rows, nextId)
  | idx, nextId, rows, c :: rest =>
      if failItem idx then none
      else insertOrderItems oid failItem (idx + 1) (nextId + 1)
        (rows ++ [⟨nextId, oid, c.product_id, c.quantity⟩]) rest

/-- The `order_items` rows that a successful `POST /api/orders` run
appends for the given cart lines, starting at serial id `nextId`. -/
def orderRowsFor (oid : Nat) : Nat → List CartLine → List OrderItem
  | _, [] => []
  | nextId, c :: rest =>
      ⟨nextId, oid, c.product_id, c.quantity⟩ :: orderRowsFor oid (nextId + 1) rest

/-- V2 `POST /api/orders`: validates the customer fields
(`!customer_name || (!customer_email && !customer_phone)` gives 400
before the transaction starts), then `BEGIN`; reads the cart; an empty
cart rolls back with 400; inserts the `orders` row, one `order_items` row
per cart line, and `DELETE FROM cart_items`; `COMMIT`.  Any error rolls
the transaction back, restoring the pre-call state.  `ordNum` is the
stored order number (supplied or generated from the clock);
`failOrder`, `failItem` and `failClear` inject transient database errors
into the corresponding statements. -/
def createOrderV2 (st : StV2) (cname cemail cphone ccomment : FieldIn String)
    (ordNum : String) (failOrder : Bool) (failItem : Nat → Bool)
    (failClear : Bool) : StV2 × Except ApiErr Order :=
  if !truthyS cname ∨ (!truthyS cemail ∧ !truthyS cphone) then
    (st, .error .badRequest)
  else
    let cartItems := st.cart
    if cartItems.isEmpty then (st, .error .badRequest)
    else if failOrder then (st, .error .serverError)
    else
      let o : Order := ⟨st.nextOrderId, storeField cname, storeField cemail,
        storeField cphone, some ordNum, storeField ccomment⟩
      match insertOrderItems st.nextOrderId failItem 0 st.nextOrderItemId
          st.order_items cartItems with
      | none => (st, .error .serverError)
      | some (rows, nid) =>
          if failClear then (st, .error .serverError)
          else
            ({ st with
                orders := st.orders ++ [o]
                order_items := rows
                cart := []
                nextOrderId := st.nextOrderId + 1
                nextOrderItemId := nid },
             .ok o)

/-- Database state of the Part000 server (its cart and catalog tables;
the upload directory is modelled separately as `MediaSt`). -/
structure StP0 where
  products : List Product
  bom : List BomEdge
  cart : List CartLine
  nextProductId : Nat
  nextBomId : Nat
  nextCartId : Nat
deriving DecidableEq, Repr

/-- Part000 `POST /api/products` (admin): validates `!code || !name ||
!type` with 400, then `BEGIN`; inserts the `products` row; when a truthy
`parentId` was supplied, coerces `quantityInParent` and inserts one
`bom_items (parent_id, product_id, quantity)` row; `COMMIT`.  The edge
insert is subject to the `bom_items.parent_id REFERENCES products(id)`
foreign key, and `failProd`/`failEdge` inject transient database errors;
any failure reaches the `catch`, which issues `ROLLBACK`, so the state
reverts whole. -/
def createProductPart000 (st : StP0) (code name ptype : FieldIn String)
    (mass lenv widv heiv : FieldIn Int) (parentId : Nat) (qip : QtyInput)
    (failProd failEdge : Bool) : StP0 × Except ApiErr Product :=
  if !truthyS code ∨ !truthyS name ∨ !truthyS ptype then
    (st, .error .badRequest)
  else if failProd then (st, .error .serverError)
  else
    let pid := st.nextProductId
    let prod : Product := ⟨pid, storeField code, storeField name,
      storeField ptype, storeField mass, storeField lenv, storeField widv,
      storeField heiv⟩
    let w1 := { st with
      products := st.products ++ [prod], nextProductId := pid + 1 }
    if parentId = 0 then (w1, .ok prod)
    else if failEdge then (st, .error .serverError)
    else if w1.products.any (fun p => p.id = parentId) then
      let qty := coerceQtyPart000 qip
      (({ w1 with
          bom := w1.bom ++ [⟨w1.nextBomId, parentId, pid, qty⟩]
          nextBomId := w1.nextBomId + 1 }), .ok prod)
    else (st, .error .serverError)

/-- Part000 `POST /api/cart/add` `{productId, quantity}`: rejects a falsy
`productId` with 400, coerces the quantity to a positive number, then
either updates the existing row for the product
(`UPDATE cart_items SET quantity = $1`, with `Number(current) || 0 + qty`)
or inserts a fresh row.  The handler never checks that the product
exists; only the `cart_items.product_id` foreign key stops an unknown
product, as a 500. -/
def cartAddPart000 (st : StP0) (productId : Nat) (qty : QtyInput) :
    StP0 × Except ApiErr Unit :=
  if productId = 0 then (st, .error .badRequest)
  else
    let q := coerceQtyPart000 qty
    match st.cart.find? (fun l => l.product_id = productId) with
    | some l =>
        ({ st with
            cart := st.cart.map (fun r =>
              if r.id = l.id then { r with quantity := l.quantity + q }
              else r) },
         .ok ())
    | none =>
        if st.products.any (fun p => p.id = productId) then
          ({ st with
              cart := st.cart ++ [⟨st.nextCartId, productId, q⟩],
              nextCartId := st.nextCartId + 1 },
           .ok ())
        else (st, .error .serverError)

/-- The Part000 upload directory: the files under `UPLOAD_ROOT`, as
(stored filename, byte size) pairs. -/
structure MediaSt where
  files : List (String × Nat)
deriving DecidableEq, Repr

/-- Part000 `STORAGE_LIMIT_BYTES`: `2 * 1024 * 1024 * 1024` (2 GiB). -/
def STORAGE_LIMIT_BYTES : Nat := 2 * 1024 * 1024 * 1024

/-- `getDirStats(UPLOAD_ROOT).totalBytes`: the byte total the storage
endpoint reports — the spec's `currentUsage()`. -/
def currentUsage (st : MediaSt) : Nat :=
  (st.files.map Prod.snd).sum

/-- Part000 `GET /api/admin/storage` response fields
`(totalFiles, totalBytesUsed, totalBytesLimit, totalBytesAvailable)`,
with `available = Math.max(0, limit - used)`. -/
def adminStoragePart000 (st : MediaSt) : Nat × Nat × Nat × Nat :=
  (st.files.length, currentUsage st, STORAGE_LIMIT_BYTES,
   STORAGE_LIMIT_BYTES - min STORAGE_LIMIT_BYTES (currentUsage st))

/-- The uploaded multipart file of a media request, if any. -/
inductive UploadFile where
  | noFile
  | file (fname : String) (size : Nat)
deriving DecidableEq, Repr

/-- Part000 `POST /api/products/:id/media`: multer stores the file on
disk before the handler body runs; the handler then

* rejects non-admin callers with 403, unlinking the just-written file;
* rejects a missing file or falsy `kind` with 400, unlinking the file;
* rejects a `kind` other than `image`/`model` with 400, unlinking;
* otherwise replies with the file's URL.

No storage-quota comparison appears anywhere on this path —
`STORAGE_LIMIT_BYTES` is only read by `GET /api/admin/storage` — and
nothing is written to the database (the handler's own comment says so). -/
def mediaUploadPart000 (st : MediaSt) (isAdmin : Bool) (upload : UploadFile)
    (kind : Option String) : MediaSt × Except ApiErr String :=
  match upload with
  | .noFile =>
      if !isAdmin then (st, .error .forbidden)
      else (st, .error .badRequest)
  | .file fname size =>
      let written : MediaSt := ⟨st.files ++ [(fname, size)]⟩
      let dropped : MediaSt := ⟨written.files.filter (fun f => !(f.1 = fname))⟩
      if !isAdmin then (dropped, .error .forbidden)
      else
        match kind with
        | none => (dropped, .error .badRequest)
        | some k =>
            if k = "" then (dropped, .error .badRequest)
            else if k ≠ "image" ∧ k ≠ "model" then (dropped, .error .badRequest)
            else (written, .ok ("/uploads/" ++ fname))

/-- A Part001 in-memory cart entry: the handler copies the product's
`code` and `name` into the array element. -/
structure CLine1 where
  id : Nat
  product_id : Nat
  quantity : Int
  code : Option String
  name : Option String
deriving DecidableEq, Repr

/-- State of the Part001 server: pg-backed `products` and `bom_items`,
plus the module-level `cart` array and its `nextCartId` counter. -/
structure St1 where
  products : List Product
  bom : List BomEdge
  cart : List CLine1
  nextCartId : Nat
deriving DecidableEq, Repr

/-- Part001 `POST /api/cart/add` `{product_id, quantity}`: validates that
the id is an integer, looks the product up (404 when absent), coerces the
quantity with `normalizeNumber(quantity) || 1`, and pushes a fresh
element onto the `cart` array — there is no merge with an existing line
for the same product. -/
def cartAddPart001 (st : St1) (productId : Nat) (qty : QtyInput) :
    St1 × Except ApiErr CLine1 :=
  match (st.products.filter (fun p => p.id = productId)).head? with
  | none => (st, .error .notFound)
  | some p =>
      let item : CLine1 :=
        ⟨st.nextCartId, productId, coerceQtyPart001 qty, p.code, p.name⟩
      ({ st with cart := st.cart ++ [item], nextCartId := st.nextCartId + 1 },
       .ok item)

/-- Part001 `DELETE /api/admin/products/:id`: two separate autocommitted
queries — `DELETE FROM bom_items WHERE product_id = $1 OR
child_product_id = $1`, then `DELETE FROM products WHERE id = $1
RETURNING *` with a 404 when no row came back.  The in-memory `cart`
array is never touched. -/
def deleteProductPart001 (st : St1) (id : Nat) : St1 × Except ApiErr Unit :=
  let st1 := { st with
    bom := st.bom.filter (fun e => !(e.parent_id = id ∨ e.child_id = id)) }
  if st1.products.any (fun p => p.id = id) then
    ({ st1 with products := st1.products.filter (fun p => !(p.id = id)) },
     .ok ())
  else (st1, .error .notFound)

/-- Part001 `PUT /api/admin/products/:id`: a full seven-column
`UPDATE ... RETURNING *` storing the raw body values
(with `normalizeNumber` on the numeric ones); 404 when no row matched. -/
def updateProductPart001 (st : St1) (id : Nat) (ins : UpdV1) :
    St1 × Except ApiErr Product :=
  match (st.products.filter (fun p => p.id = id)).head? with
  | none => (st, .error .notFound)
  | some p =>
      ({ st with
          products := st.products.map (fun q =>
            if q.id = id then applyUpdV1 ins q else q) },
       .ok (applyUpdV1 ins p))

lemma codeLe_trans : ∀ a b c : Option String,
    codeLe a b = true → codeLe b c = true → codeLe a c = true := by
  intro a b c hab hbc
  cases a <;> cases b <;> cases c <;> simp [codeLe] at *
  exact le_trans hab hbc

lemma codeLe_total : ∀ a b : Option String,
    (codeLe a b || codeLe b a) = true := by
  intro a b
  cases a <;> cases b <;> simp [codeLe]
  exact le_total _ _

/-- C1. — Counterexample to the claim as stated: in the `part_000`
variant, `listRoots` returns the item with id 2 even though it is the
child endpoint of the composition edge 1 → 2. -/
theorem c1_roots_counterexample :
    (⟨2, some "B", some "N2", some "Part", none, none, none, none⟩ : Product) ∈
      listRootsPart000
        [⟨1, some "A", some "N1", some "Assembly", none, none, none, none⟩,
         ⟨2, some "B", some "N2", some "Part", none, none, none, none⟩] ∧
    hasIncomingEdge [⟨1, 1, 2, 1⟩] 2 = true := by
  constructor
  · unfold listRootsPart000
    exact List.mem_mergeSort.mpr (by simp)
  · decide

/-- C1 (amended). — The first `index.js` variant returns exactly the
Items that are not the child endpoint of any Composition Edge, ordered
by code; the second `index.js` variant returns the same set but ordered
by id; the `part_000` variant returns all Items, ordered by code. -/
theorem c1_roots_amended :
    (∀ (ps : List Product) (bom : List BomEdge) (p : Product),
        p ∈ listRootsV1 ps bom ↔ p ∈ ps ∧ hasIncomingEdge bom p.id = false) ∧
    (∀ (ps : List Product) (bom : List BomEdge),
        (listRootsV1 ps bom).Pairwise (fun a b => codeLe a.code b.code = true)) ∧
    (∀ (ps : List ProductV2) (bom : List BomEdge) (p : ProductV2),
        p ∈ listRootsV2 ps bom ↔ p ∈ ps ∧ hasIncomingEdge bom p.id = false) ∧
    (∀ (ps : List ProductV2) (bom : List BomEdge),
        (listRootsV2 ps bom).Pairwise (fun a b => a.id ≤ b.id)) ∧
    (∀ (ps : List Product) (p : Product),
        p ∈ listRootsPart000 ps ↔ p ∈ ps) ∧
    (∀ ps : List Product,
        (listRootsPart000 ps).Pairwise (fun a b => codeLe a.code b.code = true)) := by
  refine ⟨?_, ?_, ?_, ?_, ?_, ?_⟩
  · intro ps bom p
    unfold listRootsV1
    rw [List.mem_mergeSort, List.mem_filter]
    simp
  · intro ps bom
    exact List.sorted_mergeSort
      (fun a b c => codeLe_trans a.code b.code c.code)
      (fun a b => codeLe_total a.code b.code) _
  · intro ps bom p
    unfold listRootsV2
    rw [List.mem_mergeSort, List.mem_filter]
    simp
  · intro ps bom
    have h := @List.sorted_mergeSort ProductV2
      (fun a b => a.id ≤ b.id)
      (fun a b c hab hbc => by
        simp only [decide_eq_true_eq] at *
        exact Nat.le_trans hab hbc)
      (fun a b => by
        simp only [Bool.or_eq_true, decide_eq_true_eq]
        exact Nat.le_total a.id b.id)
      (ps.filter (fun p => !hasIncomingEdge bom p.id))
    unfold listRootsV2
    exact h.imp (fun hab => of_decide_eq_true hab)
  · intro ps p
    unfold listRootsPart000
    rw [List.mem_mergeSort]
  · intro ps
    exact List.sorted_mergeSort
      (fun a b c => codeLe_trans a.code b.code c.code)
      (fun a b => codeLe_total a.code b.code) _

/-- C1 (witness). — On a concrete catalog, item 1 (code `A`, not a child)
is listed by the first variant's `listRoots`. -/
theorem c1_roots_amended_witness :
    (⟨1, some "A", some "N1", some "Assembly", none, none, none, none⟩ : Product) ∈
      listRootsV1
        [⟨1, some "A", some "N1", some "Assembly", none, none, none, none⟩,
         ⟨2, some "B", some "N2", some "Part", none, none, none, none⟩]
        [⟨1, 1, 2, 1⟩] :=
  (c1_roots_amended.1 _ _ _).mpr (by constructor <;> decide)

/-- C2. — The code accepts a self-referential composition edge: with
product 1 in the catalog, `POST /api/bom {parentId: 1, childId: 1,
quantity: 5}` inserts the edge 1 → 1 and returns it with 201, although
parent = child (the claim demands a cycle/validation failure with no
insert).  No cycle check of any kind exists in the handler. -/
theorem c2_cycle_code_behavior :
    addBomV2
      ⟨[⟨1, some "A", some "N", some "Assembly", none, none, none, none,
          none, none⟩], [], [], [], [], 1, 1, 1, 1⟩ 1 1 5 =
    (⟨[⟨1, some "A", some "N", some "Assembly", none, none, none, none,
          none, none⟩], [⟨1, 1, 1, 5⟩], [], [], [], 2, 1, 1, 1⟩,
     .ok ⟨1, 1, 1, 5⟩) := by
  decide

/-- C3. — The deletion cascade is not atomic: with products 1 and 2, the
edge 1 → 2, a cart line for product 1 and an `order_items` row still
referencing product 1, `DELETE /api/products/1` commits the `bom_items`
and `cart_items` deletions, then fails on the `order_items` foreign key;
the item survives with its edges and cart lines already gone, and
nothing is rolled back (the claim demands all-or-nothing). -/
theorem c3_delete_code_behavior :
    deleteProductV2
      ⟨[⟨1, some "A", some "N", some "Assembly", none, none, none, none,
          none, none⟩,
        ⟨2, some "B", some "M", some "Part", none, none, none, none,
          none, none⟩],
       [⟨1, 1, 2, 1⟩], [⟨1, 1, 2⟩],
       [⟨1, some "C", none, some "123", some "ORD-1", none⟩],
       [⟨1, 1, 1, 2⟩], 2, 2, 2, 2⟩ 1 =
    (⟨[⟨1, some "A", some "N", some "Assembly", none, none, none, none,
          none, none⟩,
        ⟨2, some "B", some "M", some "Part", none, none, none, none,
          none, none⟩],
       [], [],
       [⟨1, some "C", none, some "123", some "ORD-1", none⟩],
       [⟨1, 1, 1, 2⟩], 2, 2, 2, 2⟩,
     .error .serverError) := by
  decide

lemma filter_not_all {α : Type} (q : α → Bool) (l : List α) :
    (l.filter (fun x => !(q x))).all (fun x => !(q x)) = true := by
  simp only [List.all_eq_true]
  intro x hx
  exact (List.mem_filter.mp hx).2

lemma filter_not_any_false {α : Type} (q : α → Bool) (l : List α) :
    (l.filter (fun x => !(q x))).any q = false := by
  rw [← Bool.not_eq_true, List.any_eq_true]
  intro ⟨x, hx, hq⟩
  have := (List.mem_filter.mp hx).2
  rw [hq] at this
  exact absurd this (by decide)

/-- C4. — Counterexample to the claim as stated: in the `part_001`
variant, deleting item 1 succeeds but leaves the in-memory cart line
referencing item 1 in place (the cart is never cascaded). -/
theorem c4_cascade_counterexample :
    deleteProductPart001
      ⟨[⟨1, some "A", some "N", some "Part", none, none, none, none⟩],
       [], [⟨1, 1, 2, some "A", some "N"⟩], 2⟩ 1 =
    (⟨[], [], [⟨1, 1, 2, some "A", some "N"⟩], 2⟩, .ok ()) ∧
    (deleteProductPart001
      ⟨[⟨1, some "A", some "N", some "Part", none, none, none, none⟩],
       [], [⟨1, 1, 2, some "A", some "N"⟩], 2⟩ 1).1.cart.any
        (fun l => l.product_id = 1) = true := by
  constructor <;> decide

/-- C4 (amended). — After one successful `deleteItem(id)` no Composition
Edge referencing `id` remains and the item itself is gone, and a second
`deleteItem(id)` returns NotFound — in both the first `index.js` variant
and `part_001`.  The first `index.js` variant also removes every Cart
Line referencing `id`; `part_001` leaves its in-memory cart untouched
(see the counterexample), and no variant stores Media Reference
records. -/
theorem c4_cascade_amended :
    (∀ (st : StV1) (id : Nat), (deleteProductV1 st id).2 = .ok () →
        ((deleteProductV1 st id).1.bom.all
            (fun e => !(e.parent_id = id ∨ e.child_id = id)) = true ∧
         (deleteProductV1 st id).1.cart.all
            (fun l => !(l.product_id = id)) = true ∧
         (deleteProductV1 st id).1.products.all
            (fun p => !(p.id = id)) = true ∧
         (deleteProductV1 (deleteProductV1 st id).1 id).2 =
            .error .notFound)) ∧
    (∀ (st : St1) (id : Nat), (deleteProductPart001 st id).2 = .ok () →
        ((deleteProductPart001 st id).1.bom.all
            (fun e => !(e.parent_id = id ∨ e.child_id = id)) = true ∧
         (deleteProductPart001 st id).1.products.all
            (fun p => !(p.id = id)) = true ∧
         (deleteProductPart001 (deleteProductPart001 st id).1 id).2 =
            .error .notFound)) := by
  constructor
  · intro st id h
    by_cases hp : st.products.any (fun p => p.id = id) = true
    · simp only [deleteProductV1, hp, if_true]
      refine ⟨filter_not_all _ _, filter_not_all _ _, filter_not_all _ _, ?_⟩
      simp only [List.filter_filter]
      rw [if_neg]
      simp only [filter_not_any_false, Bool.false_eq_true, not_false_eq_true]
    · exfalso
      simp only [deleteProductV1, hp, if_false] at h
      rw [Bool.not_eq_true] at hp
      simp [hp] at h
  · intro st id h
    by_cases hp : st.products.any (fun p => p.id = id) = true
    · simp only [deleteProductPart001, hp, if_true]
      refine ⟨filter_not_all _ _, filter_not_all _ _, ?_⟩
      simp only [List.filter_filter]
      rw [if_neg]
      simp only [filter_not_any_false, Bool.false_eq_true, not_false_eq_true]
    · exfalso
      simp only [deleteProductPart001, hp, if_false] at h
      rw [Bool.not_eq_true] at hp
      simp [hp] at h

/-- C4 (witness). — A concrete run of the first variant: deleting item 1
clears its edge and cart line, removes the item, and a second delete
returns NotFound. -/
theorem c4_cascade_amended_witness :
    (deleteProductV1 ⟨[⟨1, some "A", some "N", some "Part", none, none,
        none, none⟩], [⟨1, 1, 2, 1⟩], [⟨1, 1, 2⟩], 2⟩ 1).1.bom.all
        (fun e => !(e.parent_id = 1 ∨ e.child_id = 1)) = true ∧
    (deleteProductV1 ⟨[⟨1, some "A", some "N", some "Part", none, none,
        none, none⟩], [⟨1, 1, 2, 1⟩], [⟨1, 1, 2⟩], 2⟩ 1).1.cart.all
        (fun l => !(l.product_id = 1)) = true ∧
    (deleteProductV1 ⟨[⟨1, some "A", some "N", some "Part", none, none,
        none, none⟩], [⟨1, 1, 2, 1⟩], [⟨1, 1, 2⟩], 2⟩ 1).1.products.all
        (fun p => !(p.id = 1)) = true ∧
    (deleteProductV1 (deleteProductV1 ⟨[⟨1, some "A", some "N", some "Part",
        none, none, none, none⟩], [⟨1, 1, 2, 1⟩], [⟨1, 1, 2⟩], 2⟩ 1).1 1).2 =
      .error .notFound :=
  c4_cascade_amended.1 _ 1 (by decide)

/-- C5. — Counterexample to the claim as stated: with the upload
directory already holding exactly `STORAGE_LIMIT_BYTES` (2 GiB), an
admission of one more byte still succeeds — the handler never consults
the quota. -/
theorem c5_quota_counterexample :
    mediaUploadPart000 ⟨[("old.bin", 2147483648)]⟩ true
        (.file "f.png" 1) (some "image") =
      (⟨[("old.bin", 2147483648), ("f.png", 1)]⟩, .ok "/uploads/f.png") ∧
    currentUsage ⟨[("old.bin", 2147483648)]⟩ + 1 > STORAGE_LIMIT_BYTES := by
  constructor <;> decide

/-- C5 (amended). — `POST /api/products/:id/media` performs no quota
check at all: an admin upload with kind `image` or `model` succeeds and
stores the file whatever `currentUsage()` is, even beyond
`STORAGE_LIMIT_BYTES` (which only the reporting endpoint
`GET /api/admin/storage` reads).  What does hold is cleanup on
rejection: when the handler rejects a request (non-admin, missing kind,
bad kind), the freshly written file is unlinked, so the directory, its
usage, and the set of stored paths are unchanged. -/
theorem c5_media_amended :
    (∀ (st : MediaSt) (fname : String) (size : Nat) (k : String),
        k = "image" ∨ k = "model" →
        mediaUploadPart000 st true (.file fname size) (some k) =
          (⟨st.files ++ [(fname, size)]⟩, .ok ("/uploads/" ++ fname))) ∧
    (∀ (st st' : MediaSt) (isAdmin : Bool) (fname : String) (size : Nat)
        (kind : Option String) (e : ApiErr),
        mediaUploadPart000 st isAdmin (.file fname size) kind =
          (st', .error e) →
        fname ∉ st.files.map Prod.fst →
        st' = st ∧ currentUsage st' = currentUsage st ∧
          fname ∉ st'.files.map Prod.fst) := by
  constructor
  · intro st fname size k hk
    rcases hk with h | h <;> subst h <;> rfl
  · intro st st' isAdmin fname size kind e h hfresh
    have hdrop : (st.files ++ [(fname, size)]).filter
        (fun f => !(f.1 = fname)) = st.files := by
      rw [List.filter_append]
      have h1 : st.files.filter (fun f => !(f.1 = fname)) = st.files := by
        apply List.filter_eq_self.mpr
        intro a ha
        simp only [Bool.not_eq_true', decide_eq_false_iff_not]
        intro hfa
        exact hfresh (List.mem_map.mpr ⟨a, ha, hfa⟩)
      have h2 : ([(fname, size)] : List (String × Nat)).filter
          (fun f => !(f.1 = fname)) = [] := by simp
      rw [h1, h2, List.append_nil]
    have hst : st' = st := by
      cases isAdmin with
      | false =>
          simp only [mediaUploadPart000, Bool.not_false, if_true] at h
          rw [hdrop] at h
          cases st
          exact (congrArg Prod.fst h).symm
      | true =>
          simp only [mediaUploadPart000, Bool.not_true, Bool.false_eq_true,
            if_false] at h
          cases kind with
          | none =>
              rw [hdrop] at h
              cases st
              exact (congrArg Prod.fst h).symm
          | some k =>
              by_cases hk0 : k = ""
              · simp only [hk0, if_true] at h
                rw [hdrop] at h
                cases st
                exact (congrArg Prod.fst h).symm
              · simp only [hk0, if_false] at h
                by_cases hkm : k ≠ "image" ∧ k ≠ "model"
                · simp only [if_pos hkm] at h
                  rw [hdrop] at h
                  cases st
                  exact (congrArg Prod.fst h).symm
                · simp only [if_neg hkm] at h
                  exact absurd (congrArg Prod.snd h) (by simp)
    subst hst
    exact ⟨rfl, rfl, hfresh⟩

/-- C5 (witness). — A concrete over-quota admission accepted by the
handler, via the amended theorem. -/
theorem c5_media_amended_witness :
    mediaUploadPart000 ⟨[("old.bin", 2147483648)]⟩ true
        (.file "g.glb" 7) (some "model") =
      (⟨[("old.bin", 2147483648), ("g.glb", 7)]⟩, .ok "/uploads/g.glb") :=
  c5_media_amended.1 ⟨[("old.bin", 2147483648)]⟩ "g.glb" 7 "model"
    (Or.inr rfl)

/-- C6. — Counterexample to the claim as stated: in the `part_001`
variant, `addLine(1, 3)` followed by `addLine(1, 2)` leaves TWO separate
cart lines for item 1, with quantities 3 and 2, instead of one merged
line of quantity 5. -/
theorem c6_merge_counterexample :
    ((cartAddPart001
        (cartAddPart001
          ⟨[⟨1, some "A", some "N", some "Part", none, none, none, none⟩],
           [], [], 1⟩ 1 (.num 3)).1
        1 (.num 2)).1.cart.map (fun l => l.quantity)) = [3, 2] := by
  decide

lemma filter_map_upd (X : Nat) (q : Int) (l : List CartLine) :
    ((l.map (fun (x : CartLine) =>
        if x.product_id = X then { x with quantity := x.quantity + q }
        else x)).filter (fun x => x.product_id = X)) =
    ((l.filter (fun x => x.product_id = X)).map (fun (x : CartLine) =>
        if x.product_id = X then { x with quantity := x.quantity + q }
        else x)) := by
  induction l with
  | nil => rfl
  | cons a t ih =>
      by_cases h : a.product_id = X <;> simp [h, ih]

/-- C6 (amended). — For every item X present in the catalog and a cart
holding no line for X yet: in the first `index.js` variant,
`addLine(X, 3)` followed by `addLine(X, 2)` leaves exactly one cart line
for X, of quantity 5 (the `ON CONFLICT ... DO UPDATE` merge); in the
second `index.js` variant and in `part_001`, the same two calls leave
two separate lines for X, of quantities 3 and 2. -/
theorem c6_cart_merge_amended :
    (∀ (st : StV1) (X : Nat), X ≠ 0 →
        st.products.any (fun p => p.id = X) = true →
        st.cart.filter (fun l => l.product_id = X) = [] →
        (((cartAddV1 (cartAddV1 st X (.num 3)).1 X (.num 2)).1.cart.filter
            (fun l => l.product_id = X)).map (fun l => l.quantity)) = [5]) ∧
    (∀ (st : StV2) (X : Nat), X ≠ 0 →
        st.products.any (fun p => p.id = X) = true →
        st.cart.filter (fun l => l.product_id = X) = [] →
        (((cartAddV2 (cartAddV2 st X (.num 3)).1 X (.num 2)).1.cart.filter
            (fun l => l.product_id = X)).map (fun l => l.quantity)) = [3, 2]) ∧
    (∀ (st : St1) (X : Nat) (p : Product),
        (st.products.filter (fun q => q.id = X)).head? = some p →
        st.cart.filter (fun l => l.product_id = X) = [] →
        (((cartAddPart001 (cartAddPart001 st X (.num 3)).1 X (.num 2)).1.cart.filter
            (fun l => l.product_id = X)).map (fun l => l.quantity)) = [3, 2]) := by
  refine ⟨?_, ?_, ?_⟩
  · intro st X hX hprod hfilter
    have hfind : st.cart.find? (fun l => l.product_id = X) = none :=
      List.find?_eq_none.mpr (List.filter_eq_nil_iff.mp hfilter)
    have h1 : cartAddV1 st X (.num 3) =
        ({ st with
            cart := st.cart ++ [⟨st.nextCartId, X, 3⟩],
            nextCartId := st.nextCartId + 1 }, .ok ()) := by
      simp [cartAddV1, hX, hfind, hprod, coerceQtyV1]
    rw [h1]
    have hfind2 : (st.cart ++ [(⟨st.nextCartId, X, 3⟩ : CartLine)]).find?
        (fun l => l.product_id = X) = some ⟨st.nextCartId, X, 3⟩ := by
      rw [List.find?_append, hfind]
      simp [List.find?_cons]
    have h2 : cartAddV1 ({ st with
        cart := st.cart ++ [⟨st.nextCartId, X, 3⟩],
        nextCartId := st.nextCartId + 1 } : StV1) X (.num 2) =
        ({ st with
            cart := (st.cart ++ [(⟨st.nextCartId, X, 3⟩ : CartLine)]).map
              (fun (l : CartLine) =>
                if l.product_id = X then { l with quantity := l.quantity + 2 }
                else l),
            nextCartId := st.nextCartId + 1 }, .ok ()) := by
      simp [cartAddV1, hX, hfind2, coerceQtyV1]
    rw [h2]
    rw [filter_map_upd X 2 (st.cart ++ [(⟨st.nextCartId, X, 3⟩ : CartLine)])]
    rw [List.filter_append, hfilter]
    simp
  · intro st X hX hprod hfilter
    have h1 : cartAddV2 st X (.num 3) =
        ({ st with
            cart := st.cart ++ [⟨st.nextCartId, X, 3⟩],
            nextCartId := st.nextCartId + 1 }, .ok ⟨st.nextCartId, X, 3⟩) := by
      simp [cartAddV2, hX, hprod]
    rw [h1]
    have h2 : cartAddV2 ({ st with
        cart := st.cart ++ [⟨st.nextCartId, X, 3⟩],
        nextCartId := st.nextCartId + 1 } : StV2) X (.num 2) =
        ({ st with
            cart := st.cart ++ [⟨st.nextCartId, X, 3⟩] ++
              [⟨st.nextCartId + 1, X, 2⟩],
            nextCartId := st.nextCartId + 2 }, .ok ⟨st.nextCartId + 1, X, 2⟩) := by
      simp [cartAddV2, hX, hprod]
    rw [h2]
    simp only [List.filter_append, hfilter, List.nil_append]
    simp
  · intro st X p hhead hfilter
    have h1 : cartAddPart001 st X (.num 3) =
        ({ st with
            cart := st.cart ++ [⟨st.nextCartId, X, 3, p.code, p.name⟩],
            nextCartId := st.nextCartId + 1 },
         .ok ⟨st.nextCartId, X, 3, p.code, p.name⟩) := by
      simp [cartAddPart001, hhead, coerceQtyPart001]
    rw [h1]
    have h2 : cartAddPart001 ({ st with
        cart := st.cart ++ [⟨st.nextCartId, X, 3, p.code, p.name⟩],
        nextCartId := st.nextCartId + 1 } : St1) X (.num 2) =
        ({ st with
            cart := st.cart ++ [⟨st.nextCartId, X, 3, p.code, p.name⟩] ++
              [⟨st.nextCartId + 1, X, 2, p.code, p.name⟩],
            nextCartId := st.nextCartId + 2 },
         .ok ⟨st.nextCartId + 1, X, 2, p.code, p.name⟩) := by
      simp [cartAddPart001, hhead, coerceQtyPart001]
    rw [h2]
    simp only [List.filter_append, hfilter, List.nil_append]
    simp

/-- C6 (witness). — A concrete merge in the first variant: two adds of
item 1 yield the single quantity-5 line. -/
theorem c6_cart_merge_amended_witness :
    (((cartAddV1 (cartAddV1
        ⟨[⟨1, some "A", some "N", some "Part", none, none, none, none⟩],
         [], [], 1⟩ 1 (.num 3)).1 1 (.num 2)).1.cart.filter
        (fun l => l.product_id = 1)).map (fun l => l.quantity)) = [5] :=
  c6_cart_merge_amended.1 _ 1 (by decide) (by decide) (by decide)

lemma coerceQtyPart000_pos : ∀ q : QtyInput, 0 < coerceQtyPart000 q := by
  intro q
  cases q with
  | num n =>
      simp only [coerceQtyPart000]
      split <;> omega
  | missing => decide
  | invalid => decide

/-- C7. — Counterexample to the claim as stated: in the `part_001`
variant, `addLine(1, -5)` on an existing item stores the cart line with
quantity −5 (the claim demands that an invalid — including negative —
quantity be stored as 1). -/
theorem c7_validate_counterexample :
    (cartAddPart001
      ⟨[⟨1, some "A", some "N", some "Part", none, none, none, none⟩],
       [], [], 1⟩ 1 (.num (-5))).1.cart.map (fun l => l.quantity) = [-5] := by
  decide

/-- C7 (amended). — What actually holds: `part_000` never stores a
non-positive quantity (every quantity it writes is positive whenever the
cart already satisfied that invariant); `part_001` rejects an unknown
item with NotFound and leaves the state unchanged; and the coercions of
the first `index.js` variant and of `part_001` map an omitted, invalid
or zero quantity to 1 — but both pass a negative quantity through
unchanged (see the counterexample), and only `part_000`'s coercion is
always positive. -/
theorem c7_cart_validate_amended :
    (∀ (st : StP0) (pid : Nat) (q : QtyInput),
        (∀ l ∈ st.cart, 0 < l.quantity) →
        ∀ l ∈ (cartAddPart000 st pid q).1.cart, 0 < l.quantity) ∧
    (∀ (st : St1) (pid : Nat) (q : QtyInput),
        st.products.filter (fun p => p.id = pid) = [] →
        cartAddPart001 st pid q = (st, .error .notFound)) ∧
    (coerceQtyV1 .missing = 1 ∧ coerceQtyV1 .invalid = 1 ∧
     coerceQtyV1 (.num 0) = 1 ∧ coerceQtyPart001 .missing = 1 ∧
     coerceQtyPart001 .invalid = 1 ∧ coerceQtyPart001 (.num 0) = 1 ∧
     ∀ q : QtyInput, 0 < coerceQtyPart000 q) := by
  refine ⟨?_, ?_, ?_⟩
  · intro st pid q hpos
    by_cases h0 : pid = 0
    · simp only [cartAddPart000, h0, if_true]
      exact hpos
    · cases hf : st.cart.find? (fun l => l.product_id = pid) with
      | some l =>
          simp only [cartAddPart000, h0, if_false, hf]
          intro r hr
          obtain ⟨x, hx, rfl⟩ := List.mem_map.mp hr
          by_cases hid : x.id = l.id
          · have hl : l ∈ st.cart := List.mem_of_find?_eq_some hf
            have h1 := hpos l hl
            have h2 := coerceQtyPart000_pos q
            simp only [hid, if_true]
            omega
          · simp only [hid, if_false]
            exact hpos x hx
      | none =>
          cases hp : st.products.any (fun p => p.id = pid) with
          | true =>
              simp only [cartAddPart000, h0, if_false, hf, hp, if_true]
              intro r hr
              rcases List.mem_append.mp hr with h | h
              · exact hpos r h
              · have : r = ⟨st.nextCartId, pid, coerceQtyPart000 q⟩ :=
                  List.mem_singleton.mp h
                rw [this]
                exact coerceQtyPart000_pos q
          | false =>
              simp only [cartAddPart000, h0, if_false, hf, hp]
              exact hpos
  · intro st pid q hnone
    simp only [cartAddPart001, hnone, List.head?_nil]
  · refine ⟨rfl, rfl, by decide, rfl, rfl, by decide, coerceQtyPart000_pos⟩

/-- C7 (witness). — Adding an unknown item id (7) to `part_001`'s cart
is rejected with NotFound and changes nothing. -/
theorem c7_cart_validate_amended_witness :
    cartAddPart001 ⟨[⟨1, some "A", some "N", some "Part", none, none,
        none, none⟩], [], [], 1⟩ 7 (.num 2) =
      (⟨[⟨1, some "A", some "N", some "Part", none, none, none, none⟩],
        [], [], 1⟩, .error .notFound) :=
  c7_cart_validate_amended.2.1 _ 7 (.num 2) (by decide)

/-- C8. — Counterexample to the claim as stated: in the first `index.js`
variant, updating item 1 with a body that names only `code`, `name` and
`type` overwrites every column, so the absent `mass_kg` (previously 5)
is stored as SQL NULL — an absent field is treated as set-to-null. -/
theorem c8_update_counterexample :
    updateProductV1
      ⟨[⟨1, some "A", some "N", some "Assembly", some 5, none, none, none⟩],
       [], [], 1⟩ 1
      ⟨.val "B", .val "N", .val "Assembly", .missing, .missing, .missing,
       .missing⟩ =
    (⟨[⟨1, some "B", some "N", some "Assembly", none, none, none, none⟩],
      [], [], 1⟩,
     .ok ⟨1, some "B", some "N", some "Assembly", none, none, none, none⟩) := by
  decide

/-- C8 (amended). — All three update handlers return NotFound for an
unknown id and leave the state unchanged.  The second `index.js` variant
(COALESCE) leaves a field unchanged when it is absent — but also when it
is explicitly null, so null cannot clear a field.  The first `index.js`
variant and `part_001` overwrite every column with the raw body value,
so a field that is absent or null is stored as NULL (cleared), not left
unchanged. -/
theorem c8_update_amended :
    (∀ (st : StV1) (id : Nat) (ins : UpdV1),
        st.products.filter (fun p => p.id = id) = [] →
        updateProductV1 st id ins = (st, .error .notFound)) ∧
    (∀ (st : StV2) (id : Nat) (ins : UpdV2),
        st.products.filter (fun p => p.id = id) = [] →
        updateProductV2 st id ins = (st, .error .notFound)) ∧
    (∀ (st : St1) (id : Nat) (ins : UpdV1),
        st.products.filter (fun p => p.id = id) = [] →
        updateProductPart001 st id ins = (st, .error .notFound)) ∧
    (∀ (ins : UpdV2) (p : ProductV2),
        ((ins.code = .missing ∨ ins.code = FieldIn.null) →
          (applyUpdV2 ins p).code = p.code) ∧
        ((ins.name = .missing ∨ ins.name = FieldIn.null) →
          (applyUpdV2 ins p).name = p.name) ∧
        ((ins.type = .missing ∨ ins.type = FieldIn.null) →
          (applyUpdV2 ins p).type = p.type) ∧
        ((ins.mass_kg = .missing ∨ ins.mass_kg = FieldIn.null) →
          (applyUpdV2 ins p).mass_kg = p.mass_kg) ∧
        ((ins.length_mm = .missing ∨ ins.length_mm = FieldIn.null) →
          (applyUpdV2 ins p).length_mm = p.length_mm) ∧
        ((ins.width_mm = .missing ∨ ins.width_mm = FieldIn.null) →
          (applyUpdV2 ins p).width_mm = p.width_mm) ∧
        ((ins.height_mm = .missing ∨ ins.height_mm = FieldIn.null) →
          (applyUpdV2 ins p).height_mm = p.height_mm) ∧
        ((ins.image2d_url = .missing ∨ ins.image2d_url = FieldIn.null) →
          (applyUpdV2 ins p).image2d_url = p.image2d_url) ∧
        ((ins.model3d_url = .missing ∨ ins.model3d_url = FieldIn.null) →
          (applyUpdV2 ins p).model3d_url = p.model3d_url)) ∧
    (∀ (ins : UpdV1) (p : Product),
        ((ins.code = .missing ∨ ins.code = FieldIn.null) →
          (applyUpdV1 ins p).code = none) ∧
        ((ins.name = .missing ∨ ins.name = FieldIn.null) →
          (applyUpdV1 ins p).name = none) ∧
        ((ins.type = .missing ∨ ins.type = FieldIn.null) →
          (applyUpdV1 ins p).type = none) ∧
        ((ins.mass_kg = .missing ∨ ins.mass_kg = FieldIn.null) →
          (applyUpdV1 ins p).mass_kg = none) ∧
        ((ins.length_mm = .missing ∨ ins.length_mm = FieldIn.null) →
          (applyUpdV1 ins p).length_mm = none) ∧
        ((ins.width_mm = .missing ∨ ins.width_mm = FieldIn.null) →
          (applyUpdV1 ins p).width_mm = none) ∧
        ((ins.height_mm = .missing ∨ ins.height_mm = FieldIn.null) →
          (applyUpdV1 ins p).height_mm = none)) := by
  refine ⟨?_, ?_, ?_, ?_, ?_⟩
  · intro st id ins h
    simp only [updateProductV1, h, List.head?_nil]
  · intro st id ins h
    simp only [updateProductV2, h, List.head?_nil]
  · intro st id ins h
    simp only [updateProductPart001, h, List.head?_nil]
  · intro ins p
    refine ⟨?_, ?_, ?_, ?_, ?_, ?_, ?_, ?_, ?_⟩ <;>
      · rintro (h | h) <;> simp [applyUpdV2, coalesceField, h]
  · intro ins p
    refine ⟨?_, ?_, ?_, ?_, ?_, ?_, ?_⟩ <;>
      · rintro (h | h) <;> simp [applyUpdV1, storeField, h]

/-- C8 (witness). — A concrete unknown id (9) is rejected with NotFound
by the COALESCE-based update, leaving the state unchanged. -/
theorem c8_update_amended_witness :
    updateProductV2 ⟨[], [], [], [], [], 1, 1, 1, 1⟩ 9
      ⟨.missing, .missing, .missing, .missing, .missing, .missing,
       .missing, .missing, .missing⟩ =
    (⟨[], [], [], [], [], 1, 1, 1, 1⟩, .error .notFound) :=
  c8_update_amended.2.1 _ 9 _ (by decide)

/-- C9. — `POST /api/products` in `part_000` is atomic: the handler wraps
the `products` insert and the optional `bom_items` insert in
`BEGIN`/`COMMIT` with `ROLLBACK` in the catch, so on any failure
(injected transient error or the parent foreign-key violation) the state
is exactly the pre-call state, and on success the created item is
present and, when a parent was supplied, so is the parent→item edge. -/
theorem c9_create_atomic :
    ∀ (st : StP0) (code name ptype : FieldIn String)
      (mass lenv widv heiv : FieldIn Int) (parentId : Nat) (qip : QtyInput)
      (failProd failEdge : Bool) (st' : StP0) (r : Except ApiErr Product),
      createProductPart000 st code name ptype mass lenv widv heiv
        parentId qip failProd failEdge = (st', r) →
      (∀ e : ApiErr, r = .error e → st' = st) ∧
      (∀ prod : Product, r = .ok prod →
        prod ∈ st'.products ∧
        (parentId ≠ 0 →
          ∃ e ∈ st'.bom, e.parent_id = parentId ∧ e.child_id = prod.id)) := by
  intro st code name ptype mass lenv widv heiv parentId qip failProd failEdge
    st' r h
  simp only [createProductPart000] at h
  split_ifs at h with h1 h2 h3 h4 h5
  · injection h with hst hr
    subst hst
    subst hr
    refine ⟨fun e _ => rfl, fun prod hok => ?_⟩
    simp at hok
  · injection h with hst hr
    subst hst
    subst hr
    refine ⟨fun e _ => rfl, fun prod hok => ?_⟩
    simp at hok
  · injection h with hst hr
    subst hst
    subst hr
    refine ⟨fun e he => ?_, fun prod hok => ?_⟩
    · simp at he
    · injection hok with hp
      subst hp
      exact ⟨by simp, fun hne => absurd h3 hne⟩
  · injection h with hst hr
    subst hst
    subst hr
    refine ⟨fun e _ => rfl, fun prod hok => ?_⟩
    simp at hok
  · injection h with hst hr
    subst hst
    subst hr
    refine ⟨fun e he => ?_, fun prod hok => ?_⟩
    · simp at he
    · injection hok with hp
      subst hp
      refine ⟨by simp, fun _ => ?_⟩
      exact ⟨⟨st.nextBomId, parentId, st.nextProductId, coerceQtyPart000 qip⟩,
        by simp, rfl, rfl⟩
  · injection h with hst hr
    subst hst
    subst hr
    refine ⟨fun e _ => rfl, fun prod hok => ?_⟩
    simp at hok

/-- C9 (witness). — A concrete run: creating `PRT-1` under existing
parent 1 yields a state holding both the item (id 2) and the edge
1 → 2 with quantity 2; a failing run (parent 9 absent, foreign-key
violation) leaves the state unchanged. -/
theorem c9_create_atomic_witness :
    ((⟨2, some "PRT-1", some "Bolt", some "Part", none, none, none, none⟩ :
        Product) ∈
      (⟨[⟨1, some "ASM-1", some "Frame", some "Assembly", none, none, none,
            none⟩,
         ⟨2, some "PRT-1", some "Bolt", some "Part", none, none, none, none⟩],
        [⟨1, 1, 2, 2⟩], [], 3, 2, 1⟩ : StP0).products ∧
      ((1 : Nat) ≠ 0 →
        ∃ e ∈ (⟨[⟨1, some "ASM-1", some "Frame", some "Assembly", none, none,
            none, none⟩,
          ⟨2, some "PRT-1", some "Bolt", some "Part", none, none, none,
            none⟩], [⟨1, 1, 2, 2⟩], [], 3, 2, 1⟩ : StP0).bom,
          e.parent_id = 1 ∧ e.child_id = 2)) ∧
    ((⟨[⟨1, some "ASM-1", some "Frame", some "Assembly", none, none, none,
          none⟩], [], [], 2, 1, 1⟩ : StP0) =
      ⟨[⟨1, some "ASM-1", some "Frame", some "Assembly", none, none, none,
          none⟩], [], [], 2, 1, 1⟩) := by
  constructor
  · exact (c9_create_atomic
      ⟨[⟨1, some "ASM-1", some "Frame", some "Assembly", none, none, none,
          none⟩], [], [], 2, 1, 1⟩
      (.val "PRT-1") (.val "Bolt") (.val "Part")
      .missing .missing .missing .missing 1 (.num 2) false false
      ⟨[⟨1, some "ASM-1", some "Frame", some "Assembly", none, none, none,
          none⟩,
        ⟨2, some "PRT-1", some "Bolt", some "Part", none, none, none, none⟩],
       [⟨1, 1, 2, 2⟩], [], 3, 2, 1⟩
      (.ok ⟨2, some "PRT-1", some "Bolt", some "Part", none, none, none,
        none⟩)
      (by decide)).2
      ⟨2, some "PRT-1", some "Bolt", some "Part", none, none, none, none⟩ rfl
  · exact (c9_create_atomic
      ⟨[⟨1, some "ASM-1", some "Frame", some "Assembly", none, none, none,
          none⟩], [], [], 2, 1, 1⟩
      (.val "PRT-1") (.val "Bolt") (.val "Part")
      .missing .missing .missing .missing 9 (.num 2) false false
      ⟨[⟨1, some "ASM-1", some "Frame", some "Assembly", none, none, none,
          none⟩], [], [], 2, 1, 1⟩
      (.error .serverError) (by decide)).1 .serverError rfl

lemma insertOrderItems_ok :
    ∀ (ls : List CartLine) (oid idx nextId : Nat) (rows : List OrderItem)
      (failItem : Nat → Bool) (rows' : List OrderItem) (nid : Nat),
      insertOrderItems oid failItem idx nextId rows ls = some (rows', nid) →
      rows' = rows ++ orderRowsFor oid nextId ls := by
  intro ls
  induction ls with
  | nil =>
      intro oid idx nextId rows failItem rows' nid h
      simp only [insertOrderItems, Option.some.injEq, Prod.mk.injEq] at h
      rw [← h.1, orderRowsFor, List.append_nil]
  | cons c rest ih =>
      intro oid idx nextId rows failItem rows' nid h
      simp only [insertOrderItems] at h
      cases hf : failItem idx with
      | true => rw [hf] at h; simp at h
      | false =>
          rw [hf] at h
          simp only [Bool.false_eq_true, if_false] at h
          have := ih oid (idx + 1) (nextId + 1)
            (rows ++ [⟨nextId, oid, c.product_id, c.quantity⟩]) failItem
            rows' nid h
          rw [this, orderRowsFor, List.append_assoc, List.singleton_append]

lemma orderRowsFor_shape :
    ∀ (ls : List CartLine) (oid nextId : Nat),
      (orderRowsFor oid nextId ls).map
          (fun r => (r.order_id, r.product_id, r.quantity)) =
        ls.map (fun c => (oid, c.product_id, c.quantity)) := by
  intro ls
  induction ls with
  | nil => intro oid nextId; rfl
  | cons c rest ih =>
      intro oid nextId
      simp only [orderRowsFor, List.map_cons, ih]

/-- C10. — `POST /api/orders` is atomic: the handler wraps the cart
read, the `orders` insert, the per-line `order_items` inserts and the
cart clearing in `BEGIN`/`COMMIT` with `ROLLBACK` on every failing path
(customer validation aside, which precedes the transaction), so on any
failure — empty cart included — the state is exactly the pre-call
state, and on success one order row is appended, one `order_items` row
per cart line (carrying the order id, the line's product and quantity)
is appended, the cart is emptied, and the catalog tables are
untouched. -/
theorem c10_order_atomic :
    ∀ (st : StV2) (cname cemail cphone ccomment : FieldIn String)
      (ordNum : String) (failOrder : Bool) (failItem : Nat → Bool)
      (failClear : Bool) (st' : StV2) (r : Except ApiErr Order),
      createOrderV2 st cname cemail cphone ccomment ordNum failOrder
        failItem failClear = (st', r) →
      (∀ e : ApiErr, r = .error e → st' = st) ∧
      (∀ o : Order, r = .ok o →
        st.cart ≠ [] ∧
        st'.orders = st.orders ++ [o] ∧
        st'.order_items = st.order_items ++
          orderRowsFor o.id st.nextOrderItemId st.cart ∧
        (orderRowsFor o.id st.nextOrderItemId st.cart).map
            (fun x => (x.order_id, x.product_id, x.quantity)) =
          st.cart.map (fun c => (o.id, c.product_id, c.quantity)) ∧
        st'.cart = [] ∧ st'.products = st.products ∧ st'.bom = st.bom) := by
  intro st cname cemail cphone ccomment ordNum failOrder failItem failClear
    st' r h
  simp only [createOrderV2] at h
  split_ifs at h with h1 h2 h3 h4
  · injection h with hst hr
    subst hst
    subst hr
    refine ⟨fun e _ => rfl, fun o hok => ?_⟩
    simp at hok
  · injection h with hst hr
    subst hst
    subst hr
    refine ⟨fun e _ => rfl, fun o hok => ?_⟩
    simp at hok
  · injection h with hst hr
    subst hst
    subst hr
    refine ⟨fun e _ => rfl, fun o hok => ?_⟩
    simp at hok
  · cases hins : insertOrderItems st.nextOrderId failItem 0
        st.nextOrderItemId st.order_items st.cart with
    | none =>
        rw [hins] at h
        injection h with hst hr
        subst hst
        subst hr
        refine ⟨fun e _ => rfl, fun o hok => ?_⟩
        simp at hok
    | some pair =>
        obtain ⟨rows, nid⟩ := pair
        rw [hins] at h
        injection h with hst hr
        subst hst
        subst hr
        refine ⟨fun e _ => rfl, fun o hok => ?_⟩
        simp at hok
  · cases hins : insertOrderItems st.nextOrderId failItem 0
        st.nextOrderItemId st.order_items st.cart with
    | none =>
        rw [hins] at h
        injection h with hst hr
        subst hst
        subst hr
        refine ⟨fun e _ => rfl, fun o hok => ?_⟩
        simp at hok
    | some pair =>
        obtain ⟨rows, nid⟩ := pair
        rw [hins] at h
        injection h with hst hr
        subst hst
        subst hr
        refine ⟨fun e he => ?_, fun o hok => ?_⟩
        · simp at he
        · injection hok with ho
          subst ho
          refine ⟨?_, rfl, ?_, orderRowsFor_shape st.cart st.nextOrderId
            st.nextOrderItemId, rfl, rfl, rfl⟩
          · intro hnil
            rw [hnil] at h2
            exact h2 rfl
          · exact insertOrderItems_ok st.cart st.nextOrderId 0
              st.nextOrderItemId st.order_items failItem rows nid hins

/-- C10 (witness). — A concrete checkout: one cart line (product 1,
quantity 2) becomes order 1 with one `order_items` row, and the cart is
emptied while the catalog tables stay as they were. -/
theorem c10_order_atomic_witness :
    ([⟨1, 1, 2⟩] : List CartLine) ≠ [] ∧
    ([⟨1, some "C", some "c@x", none, some "ORD-7", none⟩] : List Order) =
      [] ++ [⟨1, some "C", some "c@x", none, some "ORD-7", none⟩] ∧
    ([⟨1, 1, 1, 2⟩] : List OrderItem) =
      [] ++ orderRowsFor 1 1 [⟨1, 1, 2⟩] ∧
    (orderRowsFor 1 1 [⟨1, 1, 2⟩]).map
        (fun x => (x.order_id, x.product_id, x.quantity)) =
      ([⟨1, 1, 2⟩] : List CartLine).map
        (fun c => (1, c.product_id, c.quantity)) ∧
    ([] : List CartLine) = [] ∧
    ([⟨1, some "A", some "N", some "Part", none, none, none, none, none,
        none⟩] : List ProductV2) =
      [⟨1, some "A", some "N", some "Part", none, none, none, none, none,
        none⟩] ∧
    ([] : List BomEdge) = [] :=
  (c10_order_atomic
    ⟨[⟨1, some "A", some "N", some "Part", none, none, none, none, none,
        none⟩], [], [⟨1, 1, 2⟩], [], [], 1, 2, 1, 1⟩
    (.val "C") (.val "c@x") .missing .missing "ORD-7" false
    (fun _ => false) false
    ⟨[⟨1, some "A", some "N", some "Part", none, none, none, none, none,
        none⟩], [], [], [⟨1, some "C", some "c@x", none, some "ORD-7", none⟩],
     [⟨1, 1, 1, 2⟩], 1, 2, 2, 2⟩
    (.ok ⟨1, some "C", some "c@x", none, some "ORD-7", none⟩)
    (by decide)).2
    ⟨1, some "C", some "c@x", none, some "ORD-7", none⟩ rfl
